import Mathlib

/-!
Shallow embedding of the federated-learning task configurators
(`src/optimization/emnist/federated_emnist.py` and
`src/optimization/shakespeare/federated_shakespeare.py`).

The two modules are orchestration glue: each wires external collaborators
(dataset loaders, model constructors, `training_utils` helpers, and the
caller-supplied iterative-process builder) into a `RunnerSpec` bundle.
Collaborator calls are modelled by an environment record of abstract
functions; the configurators additionally emit an event trace recording, in
execution order, the collaborator calls they make together with the
arguments they pass, so that ordering and argument-fixing properties (e.g.
`only_digits=False` everywhere, dataset loading happening before model-name
validation) are provable facts about the embedding.

Machine-level caveats of the modelling: TensorFlow tensors are modelled as
dtype-tagged integer lists (`tf.cast` to float32 is value-exact in the
model), and Python `None` is modelled by `Option`.
-/

/-- Opaque handle for a per-client `tf.data.Dataset`. -/
abbrev Dataset := Nat

/-- Opaque handle for a centralized (server-side) dataset. -/
abbrev CentralizedDataset := Nat

/-- Opaque handle for a dataset element type structure (`element_spec`). -/
abbrev InputSpec := Nat

/-- Opaque handle for the trainable process returned by the caller-supplied
`iterative_process_builder`. -/
abbrev IterativeProcess := Nat

/-- Opaque handle for the per-round client-sampling function built by
`training_utils.build_client_datasets_fn`. -/
abbrev ClientDatasetsFn := Nat

/-- Opaque handle for a set of model weights passed to evaluation. -/
abbrev ModelWeights := Nat

/-- Opaque handle for the result of a centralized evaluation call. -/
abbrev EvalResult := Nat

/-- Federated dataset handle: an id plus its list of client identifiers
(`client_ids` is read by the EMNIST configurator to derive the input spec). -/
structure FederatedDataset where
  id : Nat
  client_ids : List Nat
  deriving DecidableEq, Repr

/-- Tensor dtypes used by the modules. -/
inductive DType
  | int64
  | float32
  deriving DecidableEq, Repr

/-- TensorFlow tensors, modelled as a dtype tag, a shape, and flat integer
data. Casting to float32 is modelled as value-exact. -/
structure Tensor where
  dtype : DType
  shape : List Nat
  data : List Int
  deriving DecidableEq, Repr

/-- Model for `tf.squeeze`: removes the dimensions of size 1 from the shape;
the flat data is unchanged. -/
def tf_squeeze (t : Tensor) : Tensor :=
  { t with shape := t.shape.filter (fun d => d ≠ 1) }

/-- Model for `tf.cast`: retags the dtype, keeping the numeric values. -/
def tf_cast (t : Tensor) (d : DType) : Tensor :=
  { t with dtype := d }

/-- Keras model constructors reachable from the two modules:
`emnist_models.create_conv_dropout_model`,
`emnist_models.create_two_hidden_layer_model` and
`shakespeare_models.create_recurrent_model`, recording the arguments the
configurators bind. -/
inductive KerasModel
  | convDropout (only_digits : Bool)
  | twoHiddenLayer (only_digits : Bool)
  | recurrent (vocab_size : Nat) (sequence_length : Nat)
  deriving DecidableEq, Repr

/-- Loss constructors used: `tf.keras.losses.SparseCategoricalCrossentropy`,
with its `from_logits` argument (defaulting to `false` when not passed). -/
inductive Loss
  | sparseCategoricalCrossentropy (from_logits : Bool)
  deriving DecidableEq, Repr

/-- Keras metric objects built by the two `metrics_builder`s:
`tf.keras.metrics.SparseCategoricalAccuracy` for EMNIST and the four
`keras_metrics` objects for Shakespeare, recording the `masked_tokens`
argument where one is passed. -/
inductive Metric
  | sparseCategoricalAccuracy
  | numBatchesCounter
  | numExamplesCounter
  | numTokensCounter (masked_tokens : List Int)
  | maskedCategoricalAccuracy (masked_tokens : List Int)
  deriving DecidableEq, Repr

/-- Bundle built by the `tff_model_fn` of each module via
`tff.learning.from_keras_model`. -/
structure TffModel where
  keras_model : KerasModel
  input_spec : InputSpec
  loss : Loss
  metrics : List Metric

/-- Local outputs dictionary handed to a client weight function; modelled as
a map from string keys to tensors (only `num_tokens` is ever read). -/
abbrev LocalOutputs := String → Tensor

/-- Client-contribution-weight closure type, as accepted by the
iterative-process builder. -/
abbrev ClientWeightFn := LocalOutputs → Tensor

/-- Python errors raised by the modules: a kind (e.g. `ValueError`) and a
message. -/
structure PyError where
  kind : String
  message : String
  deriving DecidableEq, Repr

/-- Modelled from the spec: `optimization.shared.training_specs.TaskSpec` is
not under `src/`; per the spec it carries `client_batch_size`,
`client_epochs_per_round`, `clients_per_round`,
`client_datasets_random_seed` and the `iterative_process_builder` callable.
The builder accepts a model-factory closure and optionally a
client-weighting closure (`Option` models the optional keyword argument). -/
structure TaskSpec where
  client_batch_size : Nat
  client_epochs_per_round : Nat
  clients_per_round : Nat
  client_datasets_random_seed : Nat
  iterative_process_builder : (Unit → TffModel) → Option ClientWeightFn → IterativeProcess

/-- Modelled from the spec: `optimization.shared.training_specs.RunnerSpec`
is not under `src/`; per the spec it is the four-field output bundle
(`iterative_process`, `client_datasets_fn`, `validation_fn`, `test_fn`).
Each field is `Option`-typed to model Python nullability, so "non-null"
is `Option.isSome`. -/
structure RunnerSpec where
  iterative_process : Option IterativeProcess
  client_datasets_fn : Option ClientDatasetsFn
  validation_fn : Option (ModelWeights → Nat → EvalResult)
  test_fn : Option (ModelWeights → EvalResult)

/-- Trace events recording, in program order, each collaborator call a
configurator makes together with the arguments fixed at the call site. -/
inductive Event
  | emnistGetFederatedDatasets (train_client_batch_size : Nat)
      (train_client_epochs_per_round : Nat) (only_digits : Bool)
  | emnistGetCentralizedDatasets (only_digits : Bool)
  | emnistBindModelBuilder (model : String) (only_digits : Bool)
  | shakespeareGetFederatedDatasets (train_client_batch_size : Nat)
      (train_client_epochs_per_round : Nat) (sequence_length : Nat)
  | shakespeareGetCentralizedDatasets (sequence_length : Nat)
  | shakespeareBindModelBuilder (sequence_length : Nat)
  | callIterativeProcessBuilder (has_client_weight_fn : Bool)
  | buildClientDatasetsFn (clients_per_round : Nat) (random_seed : Nat)
  | buildCentralizedEvaluateFn
  deriving DecidableEq, Repr

/-- Collaborators consumed by the EMNIST module: `emnist_dataset` loaders,
the `element_spec` derivation, and the `training_utils` helpers. -/
structure EmnistEnv where
  get_federated_datasets : Nat → Nat → Bool → FederatedDataset × FederatedDataset
  get_centralized_datasets : Bool → CentralizedDataset × CentralizedDataset
  create_tf_dataset_for_client : FederatedDataset → Nat → Dataset
  element_spec : Dataset → InputSpec
  build_client_datasets_fn : FederatedDataset → Nat → Nat → ClientDatasetsFn
  build_centralized_evaluate_fn : CentralizedDataset → (Unit → KerasModel) →
      (Unit → Loss) → (Unit → List Metric) → ModelWeights → EvalResult

/-- Collaborators consumed by the Shakespeare module: the
`shakespeare_dataset` loaders and constant, the `element_type_structure`
access, and the `training_utils` helpers. -/
structure ShakespeareEnv where
  CHAR_VOCAB : List Char
  get_federated_datasets : Nat → Nat → Nat → FederatedDataset × FederatedDataset
  get_centralized_datasets : Nat → CentralizedDataset × CentralizedDataset
  element_type_structure : FederatedDataset → InputSpec
  build_client_datasets_fn : FederatedDataset → Nat → Nat → ClientDatasetsFn
  build_centralized_evaluate_fn : CentralizedDataset → (Unit → KerasModel) →
      (Unit → Loss) → (Unit → List Metric) → ModelWeights → EvalResult

/-- Allowed EMNIST model names (`EMNIST_MODELS`, holding cnn and 2nn). -/
def EMNIST_MODELS : List String := ["cnn", "2nn"]

/-- Single-quote character, used to render Python string representations. -/
def pyQuote : String := String.singleton (Char.ofNat 39)

/-- Python str() rendering of a list of strings, as produced by formatting
`EMNIST_MODELS` into the error message. -/
def pyStrOfList (xs : List String) : String :=
  "[" ++ String.intercalate ", " (xs.map (fun s => pyQuote ++ s ++ pyQuote)) ++ "]"

/-- Message of the `ValueError` raised for an unrecognized model name:
the format string renders the offending model name and the Python
list representation of `EMNIST_MODELS` into the message. -/
def emnist_error_message (model : String) : String :=
  "Cannot handle model flag [" ++ model ++ "], must be one of " ++
    pyStrOfList EMNIST_MODELS ++ "."

/-- Model-name dispatch of the `if/elif/else` chain in EMNIST
`configure_training`: `cnn` and `2nn` bind a `functools.partial` of the
corresponding constructor with `only_digits=False`; any other name has no
builder (the `else` branch raises). -/
def emnist_model_builder (model : String) : Option (Unit → KerasModel) :=
  if model = "cnn" then
    some (fun _ => KerasModel.convDropout false)
  else if model = "2nn" then
    some (fun _ => KerasModel.twoHiddenLayer false)
  else
    none

/-- Embedding of EMNIST `configure_training`, following the statement
order of the source; returns the trace of collaborator calls made before
returning (or raising) together with the result. -/
def emnist_configure_training (env : EmnistEnv) (ts : TaskSpec) (model : String) :
    List Event × Except PyError RunnerSpec :=
  let fed := env.get_federated_datasets ts.client_batch_size ts.client_epochs_per_round false
  let emnist_train := fed.1
  let cen := env.get_centralized_datasets false
  let emnist_test := cen.2
  let input_spec := env.element_spec
    (env.create_tf_dataset_for_client emnist_train (emnist_train.client_ids.headD 0))
  let loadTrace : List Event :=
    [Event.emnistGetFederatedDatasets ts.client_batch_size ts.client_epochs_per_round false,
     Event.emnistGetCentralizedDatasets false]
  match emnist_model_builder model with
  | none =>
      (loadTrace, Except.error { kind := "ValueError", message := emnist_error_message model })
  | some model_builder =>
      let loss_builder : Unit → Loss := fun _ => Loss.sparseCategoricalCrossentropy false
      let metrics_fn : Unit → List Metric := fun _ => [Metric.sparseCategoricalAccuracy]
      let tff_model_fn : Unit → TffModel := fun _ =>
        { keras_model := model_builder ()
          input_spec := input_spec
          loss := loss_builder ()
          metrics := metrics_fn () }
      let training_process := ts.iterative_process_builder tff_model_fn none
      let client_datasets_fn := env.build_client_datasets_fn emnist_train
        ts.clients_per_round ts.client_datasets_random_seed
      let test_fn : ModelWeights → EvalResult :=
        env.build_centralized_evaluate_fn emnist_test model_builder loss_builder metrics_fn
      let validation_fn : ModelWeights → Nat → EvalResult :=
        fun model_weights _ => test_fn model_weights
      (loadTrace ++
        [Event.emnistBindModelBuilder model false,
         Event.callIterativeProcessBuilder false,
         Event.buildClientDatasetsFn ts.clients_per_round ts.client_datasets_random_seed,
         Event.buildCentralizedEvaluateFn],
       Except.ok
        { iterative_process := some training_process
          client_datasets_fn := some client_datasets_fn
          validation_fn := some validation_fn
          test_fn := some test_fn })

/-- Derived Shakespeare vocabulary size
(`VOCAB_SIZE = len(shakespeare_dataset.CHAR_VOCAB) + 4`), parameterized by
the base character vocabulary (source comment: vocabulary with OOV ID, zero
for the padding, and BOS, EOS IDs). -/
def VOCAB_SIZE (char_vocab : List Char) : Nat :=
  char_vocab.length + 4

/-- Embedding of `create_shakespeare_model`: constructs the recurrent model
with `vocab_size=VOCAB_SIZE` and the given sequence length. -/
def create_shakespeare_model (char_vocab : List Char) (sequence_length : Nat) : KerasModel :=
  KerasModel.recurrent (VOCAB_SIZE char_vocab) sequence_length

/-- Modelled from the spec: `shakespeare_dataset.get_special_tokens` is not
under `src/`. Per the spec and the source comment, the padding id is zero
and the out-of-vocabulary, begin-of-sequence and end-of-sequence ids are
the three reserved ids after the base vocabulary. Returns
`(pad, oov, bos, eos)`. -/
def get_special_tokens (char_vocab : List Char) : Int × Int × Int × Int :=
  (0, (char_vocab.length : Int) + 1, (char_vocab.length : Int) + 2,
    (char_vocab.length : Int) + 3)

/-- Padding token used by the Shakespeare metrics, the first component of
`get_special_tokens`. -/
def shakespeare_pad_token (char_vocab : List Char) : Int :=
  (get_special_tokens char_vocab).1

/-- Embedding of the Shakespeare `metrics_builder`: the two counters, the
token counter masking the padding token, and the masked categorical
accuracy masking the padding token. -/
def shakespeare_metrics_builder (char_vocab : List Char) : List Metric :=
  let pad_token := shakespeare_pad_token char_vocab
  [Metric.numBatchesCounter,
   Metric.numExamplesCounter,
   Metric.numTokensCounter [pad_token],
   Metric.maskedCategoricalAccuracy [pad_token]]

/-- Embedding of the Shakespeare `client_weight_fn`: reads the
`num_tokens` entry of the local outputs (an int64 tensor of shape `[1]`),
squeezes it to a scalar and casts it to float32. -/
def client_weight_fn (local_outputs : LocalOutputs) : Tensor :=
  tf_cast (tf_squeeze (local_outputs "num_tokens")) DType.float32

/-- Modelled from the spec: the update step of
`keras_metrics.MaskedCategoricalAccuracy` is not under `src/`. Per the
spec it "excludes padding-token positions from the accuracy computation":
a position contributes iff its target token is not masked. Returns the
pair (number of contributing positions predicted correctly, number of
contributing positions). -/
def maskedCategoricalAccuracyUpdate (masked_tokens : List Int)
    (targets preds : List Int) : Nat × Nat :=
  let pairs := targets.zip preds
  let contributing := pairs.filter (fun p => decide (p.1 ∉ masked_tokens))
  ((contributing.filter (fun p => decide (p.1 = p.2))).length, contributing.length)

/-- Modelled from the spec: the reported value of
`keras_metrics.MaskedCategoricalAccuracy` over accumulated counts; with
zero contributing positions the metric reports zero rather than failing
with a division by zero. -/
def maskedCategoricalAccuracyResult (counts : Nat × Nat) : ℚ :=
  if counts.2 = 0 then 0 else (counts.1 : ℚ) / (counts.2 : ℚ)

/-- Embedding of Shakespeare `configure_training`, following the
statement order of the source; returns the trace of collaborator calls together with the
result (this module has no local failure path, but the result type matches
the EMNIST one for uniformity of the `RunnerSpec` contract). -/
def shakespeare_configure_training (env : ShakespeareEnv) (ts : TaskSpec)
    (sequence_length : Nat) : List Event × Except PyError RunnerSpec :=
  let fed := env.get_federated_datasets ts.client_batch_size
    ts.client_epochs_per_round sequence_length
  let shakespeare_train := fed.1
  let cen := env.get_centralized_datasets sequence_length
  let shakespeare_test := cen.2
  let model_builder : Unit → KerasModel :=
    fun _ => create_shakespeare_model env.CHAR_VOCAB sequence_length
  let loss_builder : Unit → Loss := fun _ => Loss.sparseCategoricalCrossentropy true
  let input_spec := env.element_type_structure shakespeare_train
  let metrics_fn : Unit → List Metric :=
    fun _ => shakespeare_metrics_builder env.CHAR_VOCAB
  let tff_model_fn : Unit → TffModel := fun _ =>
    { keras_model := model_builder ()
      input_spec := input_spec
      loss := loss_builder ()
      metrics := metrics_fn () }
  let training_process := ts.iterative_process_builder tff_model_fn (some client_weight_fn)
  let client_datasets_fn := env.build_client_datasets_fn shakespeare_train
    ts.clients_per_round ts.client_datasets_random_seed
  let test_fn : ModelWeights → EvalResult :=
    env.build_centralized_evaluate_fn shakespeare_test model_builder loss_builder metrics_fn
  let validation_fn : ModelWeights → Nat → EvalResult :=
    fun model_weights _ => test_fn model_weights
  ([Event.shakespeareGetFederatedDatasets ts.client_batch_size
      ts.client_epochs_per_round sequence_length,
    Event.shakespeareGetCentralizedDatasets sequence_length,
    Event.shakespeareBindModelBuilder sequence_length,
    Event.callIterativeProcessBuilder true,
    Event.buildClientDatasetsFn ts.clients_per_round ts.client_datasets_random_seed,
    Event.buildCentralizedEvaluateFn],
   Except.ok
    { iterative_process := some training_process
      client_datasets_fn := some client_datasets_fn
      validation_fn := some validation_fn
      test_fn := some test_fn })

/-- Default value of the EMNIST `model` argument, the string cnn. -/
def emnist_default_model : String := "cnn"

/-- Default value of the Shakespeare `sequence_length` argument
(`sequence_length: int = 80`). -/
def shakespeare_default_sequence_length : Nat := 80

/-- EMNIST `configure_training` invoked with only a `TaskSpec`: the `model`
argument takes its declared default. -/
def emnist_configure_training_default (env : EmnistEnv) (ts : TaskSpec) :
    List Event × Except PyError RunnerSpec :=
  emnist_configure_training env ts emnist_default_model

/-- Shakespeare `configure_training` invoked with only a `TaskSpec`: the
`sequence_length` argument takes its declared default. -/
def shakespeare_configure_training_default (env : ShakespeareEnv) (ts : TaskSpec) :
    List Event × Except PyError RunnerSpec :=
  shakespeare_configure_training env ts shakespeare_default_sequence_length

/-- Concrete EMNIST collaborator environment used to evaluate the theorems
on closed inputs. -/
def emnistEnv0 : EmnistEnv :=
  { get_federated_datasets := fun b e _ => (⟨b + e, [0, 1]⟩, ⟨b + e + 1, [2]⟩)
    get_centralized_datasets := fun _ => (3, 4)
    create_tf_dataset_for_client := fun d c => d.id + c
    element_spec := fun d => d
    build_client_datasets_fn := fun d n s => d.id + n + s
    build_centralized_evaluate_fn := fun _ _ _ _ w => w + 1 }

/-- Concrete Shakespeare collaborator environment used to evaluate the
theorems on closed inputs. -/
def shakespeareEnv0 : ShakespeareEnv :=
  { CHAR_VOCAB := ["a", "b", "c"].foldr (fun s l => s.toList ++ l) []
    get_federated_datasets := fun b e s => (⟨b + e + s, [0]⟩, ⟨b + e + s + 1, [1]⟩)
    get_centralized_datasets := fun s => (s, s + 1)
    element_type_structure := fun d => d.id
    build_client_datasets_fn := fun d n s => d.id + n + s
    build_centralized_evaluate_fn := fun _ _ _ _ w => w + 2 }

/-- Concrete task specification used to evaluate the theorems on closed
inputs. -/
def ts0 : TaskSpec :=
  { client_batch_size := 10
    client_epochs_per_round := 1
    clients_per_round := 2
    client_datasets_random_seed := 7
    iterative_process_builder := fun _ w => if w.isSome then 1 else 0 }

/-- Result payload of a configurator call, with an all-null `RunnerSpec` in
the error case; used to state closed-form and hypothesis-free versions of
the theorems. -/
def runnerOf (p : List Event × Except PyError RunnerSpec) : RunnerSpec :=
  match p.2 with
  | Except.ok rs => rs
  | Except.error _ =>
      { iterative_process := none
        client_datasets_fn := none
        validation_fn := none
        test_fn := none }

/-- Concrete local-outputs dictionary holding a `num_tokens` count of 42. -/
def localOutputs0 : LocalOutputs :=
  fun _ => { dtype := DType.int64, shape := [1], data := [42] }

/-- Concrete base character vocabulary used by closed-form instances. -/
def vocab0 : List Char := "abc".toList

/-- Helper: the EMNIST model-name dispatch yields no builder exactly for
names outside `EMNIST_MODELS`. -/
theorem emnist_model_builder_none_iff (model : String) :
    emnist_model_builder model = none ↔ model ∉ EMNIST_MODELS := by
  by_cases h1 : model = "cnn" <;> by_cases h2 : model = "2nn" <;>
    simp [emnist_model_builder, EMNIST_MODELS, h1, h2]

/-- C1: for every collaborator environment, every `TaskSpec` and every model
name in the allowed set (cnn or 2nn), EMNIST `configure_training`
succeeds and returns a `RunnerSpec` whose four fields
(`iterative_process`, `client_datasets_fn`, `validation_fn`, `test_fn`)
are all non-null. -/
theorem emnist_valid_model_configures (env : EmnistEnv) (ts : TaskSpec)
    (model : String) (h : model ∈ EMNIST_MODELS) :
    ∃ rs : RunnerSpec,
      (emnist_configure_training env ts model).2 = Except.ok rs ∧
      rs.iterative_process.isSome = true ∧
      rs.client_datasets_fn.isSome = true ∧
      rs.validation_fn.isSome = true ∧
      rs.test_fn.isSome = true := by
  have hm : model = "cnn" ∨ model = "2nn" := by
    simpa [EMNIST_MODELS] using h
  rcases hm with rfl | rfl <;> exact ⟨_, rfl, rfl, rfl, rfl, rfl⟩

/-- Closed-form instance of C1 at a concrete environment, task spec and the
model name `cnn`. -/
theorem emnist_valid_model_configures_witness :
    ∃ rs : RunnerSpec,
      (emnist_configure_training emnistEnv0 ts0 "cnn").2 = Except.ok rs ∧
      rs.iterative_process.isSome = true ∧
      rs.client_datasets_fn.isSome = true ∧
      rs.validation_fn.isSome = true ∧
      rs.test_fn.isSome = true :=
  emnist_valid_model_configures emnistEnv0 ts0 "cnn" (by decide)

/-- C2 counterexample: at the concrete invalid model name `bad`, EMNIST
`configure_training` does raise the value error, but the federated and
centralized dataset loads have already taken place before the error is
raised — contradicting the claim that no dataset loading occurs before the
error. -/
theorem emnist_invalid_model_loads_datasets_first :
    ((emnist_configure_training emnistEnv0 ts0 "bad").2 =
      Except.error { kind := "ValueError", message := emnist_error_message "bad" }) ∧
    Event.emnistGetFederatedDatasets 10 1 false ∈
      (emnist_configure_training emnistEnv0 ts0 "bad").1 ∧
    Event.emnistGetCentralizedDatasets false ∈
      (emnist_configure_training emnistEnv0 ts0 "bad").1 := by
  refine ⟨rfl, ?_, ?_⟩ <;> decide

/-- C2 (amended): for every model-name string not in the allowed set, EMNIST
`configure_training` fails with a value error, and no model construction
occurs before the error — no model builder is ever bound; the dataset
loads, however, do occur before the model name is validated. -/
theorem emnist_invalid_model_value_error (env : EmnistEnv) (ts : TaskSpec)
    (model : String) (h : model ∉ EMNIST_MODELS) :
    (emnist_configure_training env ts model).2 =
      Except.error { kind := "ValueError", message := emnist_error_message model } ∧
    (∀ m d, Event.emnistBindModelBuilder m d ∉ (emnist_configure_training env ts model).1) := by
  have hb : emnist_model_builder model = none := (emnist_model_builder_none_iff model).2 h
  refine ⟨by simp [emnist_configure_training, hb], ?_⟩
  intro m d hmem
  simp [emnist_configure_training, hb] at hmem

/-- Closed-form instance of the amended C2 at the concrete invalid model
name `bad`. -/
theorem emnist_invalid_model_value_error_witness :
    (emnist_configure_training emnistEnv0 ts0 "bad").2 =
      Except.error { kind := "ValueError", message := emnist_error_message "bad" } ∧
    (∀ m d, Event.emnistBindModelBuilder m d ∉ (emnist_configure_training emnistEnv0 ts0 "bad").1) :=
  emnist_invalid_model_value_error emnistEnv0 ts0 "bad" (by decide)

/-- C3: for the `RunnerSpec` returned by either configurator, applying
`validation_fn` to any model weights and any round number yields a result
identical to applying `test_fn` to the same weights: the round number has
no effect (stated through `Option.map` so it also covers, vacuously, the
EMNIST error case where both fields are null). -/
theorem validation_fn_ignores_round_num :
    (∀ (env : EmnistEnv) (ts : TaskSpec) (model : String)
        (model_weights round_num : Nat),
      (runnerOf (emnist_configure_training env ts model)).validation_fn.map
          (fun vf => vf model_weights round_num) =
        (runnerOf (emnist_configure_training env ts model)).test_fn.map
          (fun tf => tf model_weights)) ∧
    (∀ (env : ShakespeareEnv) (ts : TaskSpec) (sequence_length : Nat)
        (model_weights round_num : Nat),
      (runnerOf (shakespeare_configure_training env ts sequence_length)).validation_fn.map
          (fun vf => vf model_weights round_num) =
        (runnerOf (shakespeare_configure_training env ts sequence_length)).test_fn.map
          (fun tf => tf model_weights)) := by
  constructor
  · intro env ts model model_weights round_num
    cases hb : emnist_model_builder model with
    | none => simp [runnerOf, emnist_configure_training, hb]
    | some mb => simp [runnerOf, emnist_configure_training, hb]
  · intro env ts sequence_length model_weights round_num
    simp [runnerOf, shakespeare_configure_training]

/-- C4: for any base character vocabulary, the derived Shakespeare
vocabulary size equals the base length plus exactly four (the padding,
out-of-vocabulary, begin-of-sequence and end-of-sequence reserved tokens),
and the recurrent model is built with that vocabulary size. -/
theorem shakespeare_vocab_size_base_plus_four :
    ∀ (char_vocab : List Char) (sequence_length : Nat),
      VOCAB_SIZE char_vocab = char_vocab.length + 4 ∧
      create_shakespeare_model char_vocab sequence_length =
        KerasModel.recurrent (char_vocab.length + 4) sequence_length :=
  fun _ _ => ⟨rfl, rfl⟩

/-- C5: the Shakespeare client weight function, applied to local outputs
whose `num_tokens` entry is an int64 tensor of shape `[1]` holding `n`,
returns the float32 scalar tensor holding `n`. -/
theorem shakespeare_client_weight_fn_token_count (local_outputs : LocalOutputs) (n : Int)
    (h : local_outputs "num_tokens" = { dtype := DType.int64, shape := [1], data := [n] }) :
    client_weight_fn local_outputs =
      { dtype := DType.float32, shape := [], data := [n] } := by
  simp [client_weight_fn, tf_cast, tf_squeeze, h]

/-- Closed-form instance of C5 at a concrete local-outputs dictionary with
a token count of 42. -/
theorem shakespeare_client_weight_fn_token_count_witness :
    client_weight_fn localOutputs0 =
      { dtype := DType.float32, shape := [], data := [42] } :=
  shakespeare_client_weight_fn_token_count localOutputs0 42 rfl

/-- C6: EMNIST `configure_training` raises an error exactly when the model
name is outside the allowed set — the single explicit error condition of
the module — and that error is a value error whose message names both the
offending input value and the valid set of model names. -/
theorem emnist_error_is_value_error_naming_input_and_models (env : EmnistEnv)
    (ts : TaskSpec) (model : String) (e : PyError) :
    (emnist_configure_training env ts model).2 = Except.error e ↔
      (model ∉ EMNIST_MODELS ∧ e.kind = "ValueError" ∧
        e.message = "Cannot handle model flag [" ++ model ++ "], must be one of " ++
          pyStrOfList EMNIST_MODELS ++ ".") := by
  obtain ⟨k, m⟩ := e
  cases hb : emnist_model_builder model with
  | none =>
      have hm : model ∉ EMNIST_MODELS := (emnist_model_builder_none_iff model).1 hb
      simp [emnist_configure_training, hb, emnist_error_message, hm, eq_comm]
  | some mb =>
      have hm : ¬model ∉ EMNIST_MODELS := by
        intro hc
        rw [(emnist_model_builder_none_iff model).2 hc] at hb
        cases hb
      simp [emnist_configure_training, hb, hm]

/-- Closed-form instance of C6 at the concrete invalid model name `bad`. -/
theorem emnist_error_is_value_error_naming_input_and_models_witness :
    (emnist_configure_training emnistEnv0 ts0 "bad").2 =
      Except.error { kind := "ValueError", message := emnist_error_message "bad" } :=
  (emnist_error_is_value_error_naming_input_and_models emnistEnv0 ts0 "bad"
    { kind := "ValueError", message := emnist_error_message "bad" }).2
    ⟨by decide, rfl, rfl⟩

/-- C7: the masked categorical accuracy built by the Shakespeare
`metrics_builder` masks the padding token; on a target sequence consisting
entirely of padding tokens it counts zero contributing positions and its
reported value is zero rather than a division-by-zero failure. -/
theorem shakespeare_masked_accuracy_all_padding (char_vocab : List Char)
    (targets preds : List Int)
    (h : ∀ t ∈ targets, t = shakespeare_pad_token char_vocab) :
    Metric.maskedCategoricalAccuracy [shakespeare_pad_token char_vocab] ∈
      shakespeare_metrics_builder char_vocab ∧
    (maskedCategoricalAccuracyUpdate [shakespeare_pad_token char_vocab]
      targets preds).2 = 0 ∧
    maskedCategoricalAccuracyResult
      (maskedCategoricalAccuracyUpdate [shakespeare_pad_token char_vocab]
        targets preds) = 0 := by
  have hfilter : (targets.zip preds).filter
      (fun p => decide (p.1 ∉ [shakespeare_pad_token char_vocab])) = [] := by
    rw [List.filter_eq_nil_iff]
    intro p hp
    obtain ⟨a, b⟩ := p
    have ha : a ∈ targets := (List.of_mem_zip hp).1
    simp [h a ha]
  have hupd : maskedCategoricalAccuracyUpdate [shakespeare_pad_token char_vocab]
      targets preds = (0, 0) := by
    simp only [maskedCategoricalAccuracyUpdate]
    rw [hfilter]
    simp
  refine ⟨by simp [shakespeare_metrics_builder], ?_, ?_⟩
  · rw [hupd]
  · rw [hupd]
    simp [maskedCategoricalAccuracyResult]

/-- Closed-form instance of C7: an all-padding target sequence of length
three against arbitrary predictions, over a three-character base
vocabulary. -/
theorem shakespeare_masked_accuracy_all_padding_witness :
    Metric.maskedCategoricalAccuracy [shakespeare_pad_token vocab0] ∈
      shakespeare_metrics_builder vocab0 ∧
    (maskedCategoricalAccuracyUpdate [shakespeare_pad_token vocab0]
      [0, 0, 0] [1, 2, 0]).2 = 0 ∧
    maskedCategoricalAccuracyResult
      (maskedCategoricalAccuracyUpdate [shakespeare_pad_token vocab0]
        [0, 0, 0] [1, 2, 0]) = 0 :=
  shakespeare_masked_accuracy_all_padding vocab0 [0, 0, 0] [1, 2, 0] (by decide)

/-- C8: the Shakespeare configurator always invokes the caller-supplied
iterative-process builder with its client weight function, while the EMNIST
configurator invokes it with the model factory only and supplies no
client-weighting closure (the optional argument is passed as none), leaving
EMNIST aggregation weighting to the framework default. -/
theorem iterative_process_builder_client_weighting :
    (∀ (env : EmnistEnv) (ts : TaskSpec) (model : String) (rs : RunnerSpec),
      (emnist_configure_training env ts model).2 = Except.ok rs →
        (∃ mf, rs.iterative_process = some (ts.iterative_process_builder mf none)) ∧
        Event.callIterativeProcessBuilder false ∈
          (emnist_configure_training env ts model).1) ∧
    (∀ (env : ShakespeareEnv) (ts : TaskSpec) (sequence_length : Nat) (rs : RunnerSpec),
      (shakespeare_configure_training env ts sequence_length).2 = Except.ok rs →
        (∃ mf, rs.iterative_process =
          some (ts.iterative_process_builder mf (some client_weight_fn))) ∧
        Event.callIterativeProcessBuilder true ∈
          (shakespeare_configure_training env ts sequence_length).1) := by
  constructor
  · intro env ts model rs hok
    cases hb : emnist_model_builder model with
    | none => simp [emnist_configure_training, hb] at hok
    | some mb =>
        simp only [emnist_configure_training, hb] at hok ⊢
        obtain rfl : _ = rs := Except.ok.inj hok
        exact ⟨⟨_, rfl⟩, by simp⟩
  · intro env ts sequence_length rs hok
    simp only [shakespeare_configure_training] at hok ⊢
    obtain rfl : _ = rs := Except.ok.inj hok
    exact ⟨⟨_, rfl⟩, by simp⟩

/-- Closed-form instance of C8 at concrete environments and the concrete
task specification. -/
theorem iterative_process_builder_client_weighting_witness :
    ((∃ mf, (runnerOf (emnist_configure_training emnistEnv0 ts0 "cnn")).iterative_process =
        some (ts0.iterative_process_builder mf none)) ∧
      Event.callIterativeProcessBuilder false ∈
        (emnist_configure_training emnistEnv0 ts0 "cnn").1) ∧
    ((∃ mf, (runnerOf (shakespeare_configure_training shakespeareEnv0 ts0 80)).iterative_process =
        some (ts0.iterative_process_builder mf (some client_weight_fn))) ∧
      Event.callIterativeProcessBuilder true ∈
        (shakespeare_configure_training shakespeareEnv0 ts0 80).1) :=
  ⟨iterative_process_builder_client_weighting.1 emnistEnv0 ts0 "cnn" _ rfl,
   iterative_process_builder_client_weighting.2 shakespeareEnv0 ts0 80 _ rfl⟩

/-- C9: every EMNIST `configure_training` call — for any environment, task
spec and model name — performs the federated and centralized dataset loads
with `only_digits=False`, never passes any other value of `only_digits` to
a load or to the model-builder binding, binds the model builder with
`only_digits=False` for both supported architectures, and the two
architecture builders construct their models with `only_digits=False`. -/
theorem emnist_only_digits_always_false (env : EmnistEnv) (ts : TaskSpec)
    (model : String) :
    (Event.emnistGetFederatedDatasets ts.client_batch_size
        ts.client_epochs_per_round false ∈ (emnist_configure_training env ts model).1) ∧
    (Event.emnistGetCentralizedDatasets false ∈
        (emnist_configure_training env ts model).1) ∧
    (∀ b e d, Event.emnistGetFederatedDatasets b e d ∈
        (emnist_configure_training env ts model).1 → d = false) ∧
    (∀ d, Event.emnistGetCentralizedDatasets d ∈
        (emnist_configure_training env ts model).1 → d = false) ∧
    (∀ m d, Event.emnistBindModelBuilder m d ∈
        (emnist_configure_training env ts model).1 → d = false) ∧
    (model ∈ EMNIST_MODELS → Event.emnistBindModelBuilder model false ∈
        (emnist_configure_training env ts model).1) ∧
    emnist_model_builder "cnn" = some (fun _ => KerasModel.convDropout false) ∧
    emnist_model_builder "2nn" = some (fun _ => KerasModel.twoHiddenLayer false) := by
  cases hb : emnist_model_builder model with
  | none =>
      refine ⟨by simp [emnist_configure_training, hb],
        by simp [emnist_configure_training, hb], ?_, ?_, ?_, ?_, rfl, rfl⟩
      · intro b e d hmem
        simp [emnist_configure_training, hb] at hmem
        exact hmem.2.2
      · intro d hmem
        simp [emnist_configure_training, hb] at hmem
        exact hmem
      · intro m d hmem
        simp [emnist_configure_training, hb] at hmem
      · intro hmodel
        exact absurd ((emnist_model_builder_none_iff model).1 hb) (not_not_intro hmodel)
  | some mb =>
      refine ⟨by simp [emnist_configure_training, hb],
        by simp [emnist_configure_training, hb], ?_, ?_, ?_, ?_, rfl, rfl⟩
      · intro b e d hmem
        simp [emnist_configure_training, hb] at hmem
        exact hmem.2.2
      · intro d hmem
        simp [emnist_configure_training, hb] at hmem
        exact hmem
      · intro m d hmem
        simp [emnist_configure_training, hb] at hmem
        exact hmem.2
      · intro hmodel
        simp [emnist_configure_training, hb]

/-- Closed-form instance of C9 at a concrete environment, task spec and the
model name `cnn`, discharging both the binding implication and one of the
universally quantified trace implications. -/
theorem emnist_only_digits_always_false_witness :
    (false = false) ∧
    Event.emnistBindModelBuilder "cnn" false ∈
      (emnist_configure_training emnistEnv0 ts0 "cnn").1 :=
  ⟨(emnist_only_digits_always_false emnistEnv0 ts0 "cnn").2.2.2.2.1 "cnn" false
      (by decide),
   (emnist_only_digits_always_false emnistEnv0 ts0 "cnn").2.2.2.2.2.1 (by decide)⟩

/-- C10: at the public interface, the EMNIST model argument defaults to
`cnn` and the Shakespeare sequence-length argument defaults to 80; calling
either configurator with only a task spec is valid (it succeeds) and is
the same call as passing the default explicitly. -/
theorem configure_training_defaults :
    emnist_default_model = "cnn" ∧
    shakespeare_default_sequence_length = 80 ∧
    (∀ (env : EmnistEnv) (ts : TaskSpec),
      emnist_configure_training_default env ts =
        emnist_configure_training env ts "cnn" ∧
      ∃ rs, (emnist_configure_training_default env ts).2 = Except.ok rs) ∧
    (∀ (env : ShakespeareEnv) (ts : TaskSpec),
      shakespeare_configure_training_default env ts =
        shakespeare_configure_training env ts 80 ∧
      ∃ rs, (shakespeare_configure_training_default env ts).2 = Except.ok rs) :=
  ⟨rfl, rfl, fun _ _ => ⟨rfl, _, rfl⟩, fun _ _ => ⟨rfl, _, rfl⟩⟩
